import Mathlib

/-
Shallow embedding of the schema-discovery and field-coverage core of the
SSRS-Report-Generator repository.

Sources embedded here:
 * `src/server/schemaDiscovery.ts` — identifier validation, catalog-row
   assembly into a `DatabaseSchema`, the built-in mock schema, the identifier
   normalizer, the column-match scorer and the top-k match selection.
 * the `evaluateFieldCoverage` helper of the server router (the file holding
   the tRPC `appRouter`).

Modelling conventions:
 * JavaScript numbers are modelled as rationals (`ℚ`); `Math.round(x)` is
   `⌊x + 1/2⌋` and `Number(x.toFixed(1))` for a nonnegative `x` rounds to one
   decimal the same way.
 * JavaScript strings are Lean `String`s; `String.prototype.includes`,
   `trim`, `toLowerCase` are modelled on the character list (ASCII case
   mapping; the normalizer strips every non-`[a-z0-9]` character afterwards
   either way).
 * The `async` discovery function is modelled as a pure function of the
   database name and an optional catalog snapshot (`getDb()` returning a
   connection is `some`, no connection is `none`); the four catalog queries
   are modelled by the snapshot's four row lists (the source merges their
   results only after all complete, so sequential assembly is equivalent).
   A thrown JS error is an `Except.error`; the source's `try/catch` is
   modelled by mapping every thrown error to the `catch` handler's result.
-/

/-- One physical column observed in the schema (`interface TableColumn`). -/
structure TableColumn where
  tableName : String
  columnName : String
  dataType : String
  isNullable : Bool
  isPrimaryKey : Bool
  isForeignKey : Bool
  referencedTable : Option String := none
  referencedColumn : Option String := none
deriving DecidableEq

/-- A directed foreign-key edge (`interface TableRelationship`). -/
structure TableRelationship where
  fromTable : String
  fromColumn : String
  toTable : String
  toColumn : String
deriving DecidableEq

/-- Aggregate schema root (`interface DatabaseSchema`). -/
structure DatabaseSchema where
  tables : List String
  columns : List TableColumn
  relationships : List TableRelationship
deriving DecidableEq

/-- A scored pairing of a field name with a column (`interface ColumnMatch`). -/
structure ColumnMatch where
  column : TableColumn
  score : ℚ
deriving DecidableEq

/-- `needle` is a leading segment of `haystack` (char-list model of a prefix
test, used to build the substring test below). -/
def charsLeadWith : List Char → List Char → Bool
  | [], _ => true
  | _ :: _, [] => false
  | a :: as, b :: bs => a == b && charsLeadWith as bs

/-- `needle` occurs contiguously somewhere in `haystack`. -/
def charsContain (haystack needle : List Char) : Bool :=
  match haystack with
  | [] => needle.isEmpty
  | _ :: rest => charsLeadWith needle haystack || charsContain rest needle

/-- Model of JavaScript `s.includes(sub)`: `sub` is a substring of `s`
(the empty string is a substring of every string, as in JS). -/
def strIncludes (s sub : String) : Bool :=
  charsContain s.data sub.data

/-- The character class `[a-z0-9]` (code points 97–122 and 48–57), the
characters kept by the normalizer's strip step. -/
def isLowerAlnum (c : Char) : Bool :=
  (97 ≤ c.toNat && c.toNat ≤ 122) || (48 ≤ c.toNat && c.toNat ≤ 57)

/-- `normalizeIdentifier`: `value.toLowerCase().replace(/[^a-z0-9]/g, "")`. -/
def normalizeIdentifier (value : String) : String :=
  ⟨(value.data.map Char.toLower).filter isLowerAlnum⟩

/-- `MATCH_THRESHOLD = 0.35`. -/
def MATCH_THRESHOLD : ℚ := 35 / 100

/-- `scoreColumnMatch`: heuristic similarity of an (already normalized) field
name to a column.  Exclusive base case (exact / substring either way), then a
flat containment boost, then six domain synonym boosts. -/
def scoreColumnMatch (normalizedField : String) (column : TableColumn) : ℚ :=
  let normalizedColumn := normalizeIdentifier column.columnName
  let base : ℚ :=
    if normalizedColumn = normalizedField then 1
    else if strIncludes normalizedColumn normalizedField then
      (normalizedField.data.length : ℚ) / (normalizedColumn.data.length : ℚ)
    else if strIncludes normalizedField normalizedColumn then
      ((normalizedColumn.data.length : ℚ) / (normalizedField.data.length : ℚ)) * (8 / 10)
    else 0
  let withContainment : ℚ :=
    base +
      (if strIncludes normalizedField normalizedColumn
          || strIncludes normalizedColumn normalizedField then 3 / 10 else 0)
  withContainment
    + (if strIncludes normalizedField "qty" && strIncludes normalizedColumn "quantity" then 2 / 10 else 0)
    + (if strIncludes normalizedField "uom" && strIncludes normalizedColumn "unitofmeasure" then 2 / 10 else 0)
    + (if strIncludes normalizedField "onhand" && strIncludes normalizedColumn "onhand" then 3 / 10 else 0)
    + (if strIncludes normalizedField "revenue" && strIncludes normalizedColumn "amount" then 15 / 100 else 0)
    + (if strIncludes normalizedField "customer" && strIncludes normalizedColumn "customer" then 15 / 100 else 0)
    + (if strIncludes normalizedField "sales" && strIncludes normalizedColumn "sales" then 15 / 100 else 0)

/-- Insert a match below every already-placed match of greater-or-equal score:
the fold of this over the scored list is what the source's stable
`sort((a, b) => b.score - a.score)` produces. -/
def insertDesc (m : ColumnMatch) : List ColumnMatch → List ColumnMatch
  | [] => [m]
  | x :: xs => if m.score ≤ x.score then x :: insertDesc m xs else m :: x :: xs

/-- Stable descending sort by score (ties keep original column order). -/
def sortByScoreDesc (l : List ColumnMatch) : List ColumnMatch :=
  l.foldl (fun acc m => insertDesc m acc) []

/-- `getTopColumnMatches`: score every column, keep only strictly positive
scores, sort descending (stable) and take the first `limit` (the source
defaults `limit` to 3; both call sites pass it explicitly here). -/
def getTopColumnMatches (fieldName : String) (schema : DatabaseSchema) (limit : Nat) : List ColumnMatch :=
  let normalizedField := normalizeIdentifier fieldName
  let scored : List ColumnMatch :=
    schema.columns.filterMap fun col =>
      let score := scoreColumnMatch normalizedField col
      if 0 < score then some ⟨col, score⟩ else none
  (sortByScoreDesc scored).take limit

/-- `findColumnMatch`: the best match if it clears the threshold. -/
def findColumnMatch (fieldName : String) (schema : DatabaseSchema) : Option ColumnMatch :=
  match getTopColumnMatches fieldName schema 1 with
  | best :: _ => if MATCH_THRESHOLD ≤ best.score then some best else none
  | [] => none

/-- A row of the base-table catalog query (`INFORMATION_SCHEMA.TABLES`). -/
structure TableRow where
  TABLE_SCHEMA : String
  TABLE_NAME : String
deriving DecidableEq

/-- A row of the columns catalog query (`INFORMATION_SCHEMA.COLUMNS`);
`CHARACTER_MAXIMUM_LENGTH` is `none` when the driver reports `NULL`. -/
structure ColumnRow where
  TABLE_SCHEMA : String
  TABLE_NAME : String
  COLUMN_NAME : String
  DATA_TYPE : String
  IS_NULLABLE : String
  CHARACTER_MAXIMUM_LENGTH : Option Int
deriving DecidableEq

/-- A row of the primary-key constraint query. -/
structure PkRow where
  TABLE_SCHEMA : String
  TABLE_NAME : String
  COLUMN_NAME : String
deriving DecidableEq

/-- A row of the foreign-key constraint join query. -/
structure FkRow where
  FK_SCHEMA : String
  FK_TABLE : String
  FK_COLUMN : String
  PK_SCHEMA : String
  PK_TABLE : String
  PK_COLUMN : String
deriving DecidableEq

/-- The result sets of the four catalog queries of `discoverDatabaseSchema`
(`Promise.all` merges them only after all four complete). -/
structure CatalogData where
  tablesResult : List TableRow
  columnsResult : List ColumnRow
  pkResult : List PkRow
  fkResult : List FkRow
deriving DecidableEq

/-- The two errors `formatIdentifier` can throw. -/
inductive IdentifierError where
  | required
  | invalidName (value : String)
deriving DecidableEq

/-- A character of the class `[\w-]` (JS `\w` is `[A-Za-z0-9_]`). -/
def isWordChar (c : Char) : Bool :=
  (97 ≤ c.toNat && c.toNat ≤ 122) || (65 ≤ c.toNat && c.toNat ≤ 90)
    || (48 ≤ c.toNat && c.toNat ≤ 57) || c == '_' || c == '-'

/-- Whether a database name matches the validation pattern `^[\w-]+$`. -/
def matchesDbNamePattern (value : String) : Bool :=
  value != "" && value.data.all isWordChar

/-- `value.replace(/]/g, "]]")`. -/
def escapeCloseBracket (value : String) : String :=
  ⟨value.data.foldr (fun c acc => (if c == ']' then [']', ']'] else [c]) ++ acc) []⟩

/-- `formatIdentifier`: reject an empty name, reject a name with a character
outside `[\w-]`, otherwise bracket-quote it. -/
def formatIdentifier (value : String) : Except IdentifierError String :=
  if value = "" then .error .required
  else if !(value.data.all isWordChar) then .error (.invalidName value)
  else .ok ("[" ++ escapeCloseBracket value ++ "]")

/-- The `dataType` rendering of one column row: append `(length)` when a
character maximum length is present and positive, with the `-1 → "max"`
rewrite sitting inside that guard exactly as in the source
(`maxLength && maxLength > 0 ? `${t}(${maxLength === -1 ? "max" : maxLength})` : t`). -/
def formatDataType (dataTypeRaw : String) (maxLength : Option Int) : String :=
  match maxLength with
  | none => dataTypeRaw
  | some m =>
    if m ≠ 0 ∧ 0 < m then
      dataTypeRaw ++ "(" ++ (if m = -1 then "max" else toString m) ++ ")"
    else dataTypeRaw

/-- The `fkMap` lookup: the referenced table and column of the last
foreign-key row whose from-side key equals `key` (JS `Map.set` overwrites,
so a later row wins). -/
def fkLookup (fkResult : List FkRow) (key : String) : Option (String × String) :=
  (fkResult.filter fun r => r.FK_SCHEMA ++ "." ++ r.FK_TABLE ++ "." ++ r.FK_COLUMN == key).getLast?
    |>.map fun r => (r.PK_SCHEMA ++ "." ++ r.PK_TABLE, r.PK_COLUMN)

/-- Assembly of the four catalog result sets into a `DatabaseSchema`:
the `pkSet`, `fkMap`, `relationships`, `columns` and `tables` constructions
of `discoverDatabaseSchema`. -/
def assembleSchema (cat : CatalogData) : DatabaseSchema :=
  let pkSet : List String :=
    cat.pkResult.map fun r => r.TABLE_SCHEMA ++ "." ++ r.TABLE_NAME ++ "." ++ r.COLUMN_NAME
  let relationships : List TableRelationship :=
    cat.fkResult.map fun r =>
      { fromTable := r.FK_SCHEMA ++ "." ++ r.FK_TABLE
        fromColumn := r.FK_COLUMN
        toTable := r.PK_SCHEMA ++ "." ++ r.PK_TABLE
        toColumn := r.PK_COLUMN }
  let columns : List TableColumn :=
    cat.columnsResult.map fun row =>
      let key := row.TABLE_SCHEMA ++ "." ++ row.TABLE_NAME ++ "." ++ row.COLUMN_NAME
      let fkInfo := fkLookup cat.fkResult key
      { tableName := row.TABLE_SCHEMA ++ "." ++ row.TABLE_NAME
        columnName := row.COLUMN_NAME
        dataType := formatDataType row.DATA_TYPE row.CHARACTER_MAXIMUM_LENGTH
        isNullable := row.IS_NULLABLE == "YES"
        isPrimaryKey := pkSet.contains key
        isForeignKey := fkInfo.isSome
        referencedTable := fkInfo.map Prod.fst
        referencedColumn := fkInfo.map Prod.snd }
  let tables : List String :=
    cat.tablesResult.map fun r => r.TABLE_SCHEMA ++ "." ++ r.TABLE_NAME
  { tables := tables, columns := columns, relationships := relationships }

/-- `generateMockDatabaseSchema`: the fixed purchase-order/inventory demo
schema returned whenever discovery has no connection or fails. -/
def generateMockDatabaseSchema : DatabaseSchema :=
  { tables := ["PurchaseOrders", "Locations", "Items", "Inventory", "Transfers", "Waste", "Usage"]
    columns := [
      { tableName := "PurchaseOrders", columnName := "OrderId", dataType := "int", isNullable := false, isPrimaryKey := true, isForeignKey := false },
      { tableName := "PurchaseOrders", columnName := "Date", dataType := "date", isNullable := false, isPrimaryKey := false, isForeignKey := false },
      { tableName := "PurchaseOrders", columnName := "OrderNumber", dataType := "nvarchar", isNullable := false, isPrimaryKey := false, isForeignKey := false },
      { tableName := "PurchaseOrders", columnName := "LocationId", dataType := "int", isNullable := false, isPrimaryKey := false, isForeignKey := true, referencedTable := some "Locations", referencedColumn := some "LocationId" },
      { tableName := "PurchaseOrders", columnName := "ItemId", dataType := "int", isNullable := false, isPrimaryKey := false, isForeignKey := true, referencedTable := some "Items", referencedColumn := some "ItemId" },
      { tableName := "PurchaseOrders", columnName := "SuggestedQuantity", dataType := "decimal", isNullable := false, isPrimaryKey := false, isForeignKey := false },
      { tableName := "PurchaseOrders", columnName := "ActualOrderQuantity", dataType := "decimal", isNullable := true, isPrimaryKey := false, isForeignKey := false },
      { tableName := "PurchaseOrders", columnName := "ConsumptionDays", dataType := "int", isNullable := false, isPrimaryKey := false, isForeignKey := false },
      { tableName := "PurchaseOrders", columnName := "BufferDays", dataType := "int", isNullable := false, isPrimaryKey := false, isForeignKey := false },
      { tableName := "PurchaseOrders", columnName := "EstimatedNeed", dataType := "decimal", isNullable := false, isPrimaryKey := false, isForeignKey := false },
      { tableName := "Locations", columnName := "LocationId", dataType := "int", isNullable := false, isPrimaryKey := true, isForeignKey := false },
      { tableName := "Locations", columnName := "LocationName", dataType := "nvarchar", isNullable := false, isPrimaryKey := false, isForeignKey := false },
      { tableName := "Items", columnName := "ItemId", dataType := "int", isNullable := false, isPrimaryKey := true, isForeignKey := false },
      { tableName := "Items", columnName := "ItemName", dataType := "nvarchar", isNullable := false, isPrimaryKey := false, isForeignKey := false },
      { tableName := "Items", columnName := "OrderingUnitOfMeasure", dataType := "nvarchar", isNullable := false, isPrimaryKey := false, isForeignKey := false },
      { tableName := "Items", columnName := "InventoryUnitOfMeasure", dataType := "nvarchar", isNullable := false, isPrimaryKey := false, isForeignKey := false },
      { tableName := "Items", columnName := "CaseSize", dataType := "int", isNullable := false, isPrimaryKey := false, isForeignKey := false },
      { tableName := "Inventory", columnName := "InventoryId", dataType := "int", isNullable := false, isPrimaryKey := true, isForeignKey := false },
      { tableName := "Inventory", columnName := "OrderId", dataType := "int", isNullable := false, isPrimaryKey := false, isForeignKey := true, referencedTable := some "PurchaseOrders", referencedColumn := some "OrderId" },
      { tableName := "Inventory", columnName := "ActualOnHand", dataType := "decimal", isNullable := false, isPrimaryKey := false, isForeignKey := false },
      { tableName := "Inventory", columnName := "TheoreticalOnHand", dataType := "decimal", isNullable := false, isPrimaryKey := false, isForeignKey := false },
      { tableName := "Inventory", columnName := "PostConsumptionSuggested", dataType := "decimal", isNullable := false, isPrimaryKey := false, isForeignKey := false },
      { tableName := "Inventory", columnName := "PostConsumptionOrdered", dataType := "decimal", isNullable := false, isPrimaryKey := false, isForeignKey := false },
      { tableName := "Inventory", columnName := "PostConsumptionVariance", dataType := "decimal", isNullable := false, isPrimaryKey := false, isForeignKey := false },
      { tableName := "Transfers", columnName := "TransferId", dataType := "int", isNullable := false, isPrimaryKey := true, isForeignKey := false },
      { tableName := "Transfers", columnName := "OrderId", dataType := "int", isNullable := false, isPrimaryKey := false, isForeignKey := true, referencedTable := some "PurchaseOrders", referencedColumn := some "OrderId" },
      { tableName := "Transfers", columnName := "TransferQuantity", dataType := "decimal", isNullable := false, isPrimaryKey := false, isForeignKey := false },
      { tableName := "Waste", columnName := "WasteId", dataType := "int", isNullable := false, isPrimaryKey := true, isForeignKey := false },
      { tableName := "Waste", columnName := "OrderId", dataType := "int", isNullable := false, isPrimaryKey := false, isForeignKey := true, referencedTable := some "PurchaseOrders", referencedColumn := some "OrderId" },
      { tableName := "Waste", columnName := "WasteQuantity", dataType := "decimal", isNullable := false, isPrimaryKey := false, isForeignKey := false },
      { tableName := "Usage", columnName := "UsageId", dataType := "int", isNullable := false, isPrimaryKey := true, isForeignKey := false },
      { tableName := "Usage", columnName := "OrderId", dataType := "int", isNullable := false, isPrimaryKey := false, isForeignKey := true, referencedTable := some "PurchaseOrders", referencedColumn := some "OrderId" },
      { tableName := "Usage", columnName := "EstimatedUsage", dataType := "decimal", isNullable := false, isPrimaryKey := false, isForeignKey := false }]
    relationships := [
      { fromTable := "PurchaseOrders", fromColumn := "LocationId", toTable := "Locations", toColumn := "LocationId" },
      { fromTable := "PurchaseOrders", fromColumn := "ItemId", toTable := "Items", toColumn := "ItemId" },
      { fromTable := "Inventory", fromColumn := "OrderId", toTable := "PurchaseOrders", toColumn := "OrderId" },
      { fromTable := "Transfers", fromColumn := "OrderId", toTable := "PurchaseOrders", toColumn := "OrderId" },
      { fromTable := "Waste", fromColumn := "OrderId", toTable := "PurchaseOrders", toColumn := "OrderId" },
      { fromTable := "Usage", fromColumn := "OrderId", toTable := "PurchaseOrders", toColumn := "OrderId" }] }

/-- What a completed discovery call reports back, with two observables the
claims are about: whether the mock fallback was substituted, and whether the
catalog queries were reached (the `db.request().query` calls sit after
`formatIdentifier` in the `try` block). -/
structure DiscoveryResult where
  schema : DatabaseSchema
  usedMockFallback : Bool
  catalogQueried : Bool
deriving DecidableEq

/-- `discoverDatabaseSchema`: no connection → mock schema; a name rejected by
`formatIdentifier` throws inside the `try`, is caught by the enclosing
`catch`, and the mock schema is returned with no catalog query attempted;
otherwise the four catalog result sets are assembled.  The `Except` layer
records that no thrown error escapes to the caller. -/
def discoverDatabaseSchema (databaseName : String) (conn : Option CatalogData) :
    Except IdentifierError DiscoveryResult :=
  match conn with
  | none => .ok { schema := generateMockDatabaseSchema, usedMockFallback := true, catalogQueried := false }
  | some cat =>
    match formatIdentifier databaseName with
    | .error _ => .ok { schema := generateMockDatabaseSchema, usedMockFallback := true, catalogQueried := false }
    | .ok _ => .ok { schema := assembleSchema cat, usedMockFallback := false, catalogQueried := true }

/-- JavaScript `Math.round(x)`: the floor of `x + 1/2`. -/
def jsRound (q : ℚ) : ℤ := ⌊q + 1 / 2⌋

/-- `Number(x.toFixed(1))` for a nonnegative `x`: round to one decimal. -/
def roundTo1 (q : ℚ) : ℚ := (jsRound (q * 10) : ℚ) / 10

/-- Model of JavaScript `s.trim()` (leading and trailing whitespace removed). -/
def jsTrim (s : String) : String :=
  ⟨((s.data.dropWhile Char.isWhitespace).reverse.dropWhile Char.isWhitespace).reverse⟩

/-- First-occurrence deduplication, the insertion order of
`Array.from(new Set(...))`; `seen` holds the values already emitted. -/
def dedupSeen (seen : List String) : List String → List String
  | [] => []
  | x :: xs => if seen.contains x then dedupSeen seen xs else x :: dedupSeen (x :: seen) xs

/-- `Array.from(new Set(fieldNames.map(f => f.trim()).filter(Boolean)))`. -/
def uniqueFieldsOf (fieldNames : List String) : List String :=
  dedupSeen [] ((fieldNames.map jsTrim).filter fun f => f != "")

/-- One matched-field record of the coverage report. -/
structure MatchedField where
  name : String
  column : String
  confidence : ℚ
deriving DecidableEq

/-- One missing-field record of the coverage report. -/
structure MissingField where
  name : String
  suggestions : List String
deriving DecidableEq

/-- The output aggregate of `evaluateFieldCoverage`. -/
structure CoverageReport where
  coveragePercent : ℤ
  matchedFields : List MatchedField
  missingFields : List MissingField
deriving DecidableEq

/-- The `table.column` rendering used for matches and suggestions. -/
def renderColumnRef (c : TableColumn) : String :=
  c.tableName ++ "." ++ c.columnName

/-- The per-field body of the `uniqueFields.forEach` loop: look at the top 3
matches; if the best clears `0.35` the field is matched (with confidence
`Number((score * 100).toFixed(1))`), otherwise it is missing with the top
matches as suggestions (`matches.map(...)`, which is empty when no column
scored positively). -/
def classifyField (schema : DatabaseSchema) (field : String) : MatchedField ⊕ MissingField :=
  let topMatches := getTopColumnMatches field schema 3
  match topMatches with
  | [] => Sum.inr { name := field, suggestions := [] }
  | best :: _ =>
    if 35 / 100 ≤ best.score then
      Sum.inl { name := field
                column := renderColumnRef best.column
                confidence := roundTo1 (best.score * 100) }
    else
      Sum.inr { name := field, suggestions := topMatches.map fun m => renderColumnRef m.column }

/-- `evaluateFieldCoverage`: null schema or empty field list short-circuits;
otherwise the trimmed, non-empty, deduplicated fields are each classified,
the matched and missing lists collect the two outcomes in field order
(`matchedCount` always equals `matchedFields.length` in the source), and the
percentage is `Math.round(matchedCount / uniqueFields.length * 100)`. -/
def evaluateFieldCoverage (schema : Option DatabaseSchema) (fieldNames : List String) :
    CoverageReport :=
  match schema with
  | none =>
    { coveragePercent := if fieldNames.length = 0 then 100 else 0
      matchedFields := [], missingFields := [] }
  | some s =>
    if fieldNames.length = 0 then
      { coveragePercent := 100, matchedFields := [], missingFields := [] }
    else
      let uniqueFields := uniqueFieldsOf fieldNames
      let matchedFields := uniqueFields.filterMap fun f => (classifyField s f).getLeft?
      let missingFields := uniqueFields.filterMap fun f => (classifyField s f).getRight?
      let coveragePercent : ℤ :=
        if uniqueFields.length = 0 then 100
        else jsRound ((matchedFields.length : ℚ) / (uniqueFields.length : ℚ) * 100)
      { coveragePercent := coveragePercent
        matchedFields := matchedFields
        missingFields := missingFields }

/-! ### Helper lemmas -/

theorem charsLeadWith_self (l : List Char) : charsLeadWith l l = true := by
  induction l with
  | nil => rfl
  | cons a as ih => simp [charsLeadWith, ih]

theorem strIncludes_self (s : String) : strIncludes s s = true := by
  unfold strIncludes
  cases h : s.data with
  | nil => rfl
  | cons a as => simp [charsContain, charsLeadWith_self]

theorem toLower_of_isLowerAlnum {c : Char} (h : isLowerAlnum c = true) :
    Char.toLower c = c := by
  simp only [isLowerAlnum, Bool.or_eq_true, Bool.and_eq_true, decide_eq_true_eq] at h
  simp only [Char.toLower]
  rw [if_neg (by omega)]

theorem filterLowerAlnum_fixed (l : List Char) :
    ((l.filter isLowerAlnum).map Char.toLower).filter isLowerAlnum = l.filter isLowerAlnum := by
  induction l with
  | nil => rfl
  | cons c cs ih =>
    by_cases h : isLowerAlnum c = true
    · simp only [List.filter_cons, h, if_true, List.map_cons, toLower_of_isLowerAlnum h, ih]
    · simp only [List.filter_cons, h, Bool.false_eq_true, if_false, ih]

/-! ### Claim theorems -/

/-- **C8** (confirmed): the identifier normalizer is idempotent — for every
string `s`, `normalize(normalize(s)) = normalize(s)`, where `normalize`
lower-cases and strips every character not in `[a-z0-9]`. -/
theorem normalizeIdentifier_idempotent (s : String) :
    normalizeIdentifier (normalizeIdentifier s) = normalizeIdentifier s :=
  congrArg String.mk (filterLowerAlnum_fixed (s.data.map Char.toLower))

/-- The mock `PurchaseOrders.OrderId` column, reused as a concrete input. -/
def orderIdColumn : TableColumn :=
  { tableName := "PurchaseOrders", columnName := "OrderId", dataType := "int",
    isNullable := false, isPrimaryKey := true, isForeignKey := false }

/-- **C3 counterexample**: matching the column `OrderId` against its own
normalized name scores `1.3` — the exact-match base `1.0` plus the
containment boost `0.3` (a string contains itself) — not `1.0`. -/
theorem scoreColumnMatch_self_not_one :
    scoreColumnMatch (normalizeIdentifier orderIdColumn.columnName) orderIdColumn = 13 / 10
    ∧ ¬ (scoreColumnMatch (normalizeIdentifier orderIdColumn.columnName) orderIdColumn = 1) := by
  have h : scoreColumnMatch (normalizeIdentifier orderIdColumn.columnName) orderIdColumn
      = 13 / 10 := by
    simp +decide [scoreColumnMatch, normalizeIdentifier, strIncludes, charsContain,
      charsLeadWith, isLowerAlnum, orderIdColumn, Char.toLower]
    norm_num
  exact ⟨h, by rw [h]; norm_num⟩

/-- **C3 (amended)**: for every column `c`, scoring `c`'s own normalized name
against `c` yields at least `1.3` (exact-match base `1.0` plus the
containment boost `0.3`, plus any synonym boosts that also fire); it is never
`1.0`. -/
theorem scoreColumnMatch_self_ge (c : TableColumn) :
    13 / 10 ≤ scoreColumnMatch (normalizeIdentifier c.columnName) c := by
  simp only [scoreColumnMatch, strIncludes_self, Bool.or_self, if_true, eq_self_iff_true]
  split_ifs <;> norm_num

/-- **C9** (confirmed): the coverage evaluator is deterministic — equal schema
and field-list inputs produce equal `CoverageReport` outputs. -/
theorem evaluateFieldCoverage_deterministic (s₁ s₂ : Option DatabaseSchema)
    (f₁ f₂ : List String) (hs : s₁ = s₂) (hf : f₁ = f₂) :
    evaluateFieldCoverage s₁ f₁ = evaluateFieldCoverage s₂ f₂ := by
  rw [hs, hf]

/-- Witness for the determinism theorem at a concrete schema and field list. -/
theorem evaluateFieldCoverage_deterministic_witness :
    evaluateFieldCoverage (some generateMockDatabaseSchema) ["Suggested Qty"]
      = evaluateFieldCoverage (some generateMockDatabaseSchema) ["Suggested Qty"] :=
  evaluateFieldCoverage_deterministic (some generateMockDatabaseSchema)
    (some generateMockDatabaseSchema) ["Suggested Qty"] ["Suggested Qty"] rfl rfl

/-- An empty catalog snapshot (a live connection that would return no rows). -/
def emptyCatalog : CatalogData :=
  { tablesResult := [], columnsResult := [], pkResult := [], fkResult := [] }

/-- **C1 counterexample**: for the invalid database name `"bad;name"` with a
live connection, discovery does **not** fail: the `InvalidIdentifier` error
thrown by `formatIdentifier` is caught by the enclosing `catch`, no catalog
query is attempted, and the mock schema is returned — the error **is**
absorbed into the mock-schema fallback. -/
theorem discoverDatabaseSchema_invalid_not_error :
    discoverDatabaseSchema "bad;name" (some emptyCatalog)
      = Except.ok { schema := generateMockDatabaseSchema, usedMockFallback := true,
                    catalogQueried := false } := by
  rfl

/-- **C1 (amended)**: for every database name failing `^[\w-]+$` and any live
catalog, discovery attempts no catalog query, but the validation error is
caught inside `discoverDatabaseSchema` and the mock schema is returned in an
`ok` result; the error does not propagate to the caller. -/
theorem discoverDatabaseSchema_invalid_caught (name : String) (cat : CatalogData)
    (h : matchesDbNamePattern name = false) :
    discoverDatabaseSchema name (some cat)
      = Except.ok { schema := generateMockDatabaseSchema, usedMockFallback := true,
                    catalogQueried := false } := by
  unfold discoverDatabaseSchema formatIdentifier
  by_cases hv : name = ""
  · rw [if_pos hv]
  · have hall : name.data.all isWordChar = false := by
      simp only [matchesDbNamePattern, Bool.and_eq_false_iff, bne_eq_false_iff_eq] at h
      rcases h with h | h
      · exact absurd h hv
      · exact h
    rw [if_neg hv, if_pos (by simp [hall])]

/-- Witness for the amended C1 theorem at a concrete invalid name. -/
theorem discoverDatabaseSchema_invalid_caught_witness :
    discoverDatabaseSchema "bad name!" (some emptyCatalog)
      = Except.ok { schema := generateMockDatabaseSchema, usedMockFallback := true,
                    catalogQueried := false } :=
  discoverDatabaseSchema_invalid_caught "bad name!" emptyCatalog (by decide)

/-- A catalog snapshot with one unbounded-length and one length-50 column. -/
def c2Catalog : CatalogData :=
  { tablesResult := [{ TABLE_SCHEMA := "dbo", TABLE_NAME := "Docs" }]
    columnsResult := [
      { TABLE_SCHEMA := "dbo", TABLE_NAME := "Docs", COLUMN_NAME := "Body",
        DATA_TYPE := "nvarchar", IS_NULLABLE := "YES", CHARACTER_MAXIMUM_LENGTH := some (-1) },
      { TABLE_SCHEMA := "dbo", TABLE_NAME := "Docs", COLUMN_NAME := "Title",
        DATA_TYPE := "nvarchar", IS_NULLABLE := "NO", CHARACTER_MAXIMUM_LENGTH := some 50 }]
    pkResult := []
    fkResult := [] }

/-- **C2** (code bug): the guard `maxLength && maxLength > 0` excludes `-1`,
so the `maxLength === -1 ? "max"` rewrite inside it is dead code — a column
whose catalog row carries character maximum length `-1` is rendered as the
bare type (`"nvarchar"`), never as `"nvarchar(max)"`; positive lengths are
rendered as `type(length)` as claimed. -/
theorem dataType_unbounded_length_not_max :
    ((assembleSchema c2Catalog).columns.map TableColumn.dataType) = ["nvarchar", "nvarchar(50)"]
    ∧ formatDataType "nvarchar" (some (-1)) = "nvarchar"
    ∧ ¬ (formatDataType "nvarchar" (some (-1)) = "nvarchar(max)") := by
  refine ⟨by rfl, by rfl, by decide⟩

/-! ### Structural lemmas about the evaluator -/

theorem mem_insertDesc {y m : ColumnMatch} {l : List ColumnMatch} :
    y ∈ insertDesc m l → y = m ∨ y ∈ l := by
  induction l with
  | nil =>
    intro h
    simp only [insertDesc, List.mem_singleton] at h
    exact Or.inl h
  | cons x xs ih =>
    intro h
    simp only [insertDesc] at h
    split at h
    · rcases List.mem_cons.mp h with hx | hrec
      · exact Or.inr (by simp [hx])
      · rcases ih hrec with h1 | h1
        · exact Or.inl h1
        · exact Or.inr (List.mem_cons_of_mem _ h1)
    · rcases List.mem_cons.mp h with h1 | h1
      · exact Or.inl h1
      · exact Or.inr h1

theorem mem_sortByScoreDesc_aux {y : ColumnMatch} :
    ∀ (l acc : List ColumnMatch),
      y ∈ l.foldl (fun acc m => insertDesc m acc) acc → y ∈ acc ∨ y ∈ l := by
  intro l
  induction l with
  | nil => exact fun acc h => Or.inl h
  | cons x xs ih =>
    intro acc h
    rcases ih (insertDesc x acc) h with h1 | h1
    · rcases mem_insertDesc h1 with h2 | h2
      · exact Or.inr (by simp [h2])
      · exact Or.inl h2
    · exact Or.inr (List.mem_cons_of_mem _ h1)

theorem mem_of_mem_sortByScoreDesc {y : ColumnMatch} {l : List ColumnMatch}
    (h : y ∈ sortByScoreDesc l) : y ∈ l := by
  rcases mem_sortByScoreDesc_aux l [] h with h1 | h1
  · simp at h1
  · exact h1

theorem mem_getTopColumnMatches {y : ColumnMatch} {field : String} {schema : DatabaseSchema}
    {limit : Nat} (h : y ∈ getTopColumnMatches field schema limit) :
    y.column ∈ schema.columns ∧ 0 < y.score
      ∧ y.score = scoreColumnMatch (normalizeIdentifier field) y.column := by
  unfold getTopColumnMatches at h
  have h1 := mem_of_mem_sortByScoreDesc (List.mem_of_mem_take h)
  rcases List.mem_filterMap.mp h1 with ⟨col, hcol, hd⟩
  dsimp only at hd
  split at hd
  next hpos =>
    injection hd with hy
    subst hy
    exact ⟨hcol, hpos, rfl⟩
  next => exact absurd hd (by simp)

theorem length_getTopColumnMatches_le (field : String) (schema : DatabaseSchema) (limit : Nat) :
    (getTopColumnMatches field schema limit).length ≤ limit := by
  unfold getTopColumnMatches
  exact List.length_take_le _ _

theorem classifyField_getLeft_shape {s : DatabaseSchema} {f : String} {m : MatchedField}
    (h : (classifyField s f).getLeft? = some m) :
    m.name = f
    ∧ ∃ best rest, getTopColumnMatches f s 3 = best :: rest
        ∧ 35 / 100 ≤ best.score
        ∧ m.column = renderColumnRef best.column
        ∧ m.confidence = roundTo1 (best.score * 100) := by
  simp only [classifyField] at h
  split at h
  next => exact Option.noConfusion h
  next best rest heq =>
    split at h
    next hth =>
      simp only [Sum.getLeft?_inl, Option.some.injEq] at h
      subst h
      exact ⟨rfl, best, rest, heq, hth, rfl, rfl⟩
    next => exact Option.noConfusion h

theorem classifyField_getRight_shape {s : DatabaseSchema} {f : String} {e : MissingField}
    (h : (classifyField s f).getRight? = some e) :
    e.name = f
    ∧ e.suggestions = (getTopColumnMatches f s 3).map fun m => renderColumnRef m.column := by
  simp only [classifyField] at h
  split at h
  next heq =>
    simp only [Sum.getRight?_inr, Option.some.injEq] at h
    subst h
    exact ⟨rfl, by rw [heq]; rfl⟩
  next best rest heq =>
    split at h
    next => exact Option.noConfusion h
    next =>
      simp only [Sum.getRight?_inr, Option.some.injEq] at h
      subst h
      exact ⟨rfl, by rw [heq]⟩

theorem sum_length_filterMap_left_right {α β γ : Type} (g : α → β ⊕ γ) (u : List α) :
    (u.filterMap fun x => (g x).getLeft?).length
      + (u.filterMap fun x => (g x).getRight?).length = u.length := by
  induction u with
  | nil => rfl
  | cons x xs ih =>
    cases hg : g x <;>
      simp only [List.filterMap_cons, hg, Sum.getLeft?_inl, Sum.getLeft?_inr,
        Sum.getRight?_inl, Sum.getRight?_inr, List.length_cons] <;>
      omega

theorem evaluateFieldCoverage_some_eq (s : DatabaseSchema) (fields : List String)
    (h : ¬ fields.length = 0) :
    evaluateFieldCoverage (some s) fields =
      { coveragePercent :=
          if (uniqueFieldsOf fields).length = 0 then 100
          else jsRound
            ((((uniqueFieldsOf fields).filterMap fun f => (classifyField s f).getLeft?).length : ℚ)
              / ((uniqueFieldsOf fields).length : ℚ) * 100)
        matchedFields := (uniqueFieldsOf fields).filterMap fun f => (classifyField s f).getLeft?
        missingFields := (uniqueFieldsOf fields).filterMap fun f => (classifyField s f).getRight? } := by
  simp only [evaluateFieldCoverage, if_neg h]

/-- A three-column schema in which every column scores 0 against `"zzz"`. -/
def threeColumnSchema : DatabaseSchema :=
  { tables := ["T"]
    columns := [
      { tableName := "T", columnName := "Alpha", dataType := "int", isNullable := false, isPrimaryKey := false, isForeignKey := false },
      { tableName := "T", columnName := "Beta", dataType := "int", isNullable := false, isPrimaryKey := false, isForeignKey := false },
      { tableName := "T", columnName := "Gamma", dataType := "int", isNullable := false, isPrimaryKey := false, isForeignKey := false }]
    relationships := [] }

/-- **C4 counterexample**: against a schema whose three candidate columns all
score 0 for the field `"zzz"`, the missing-field record carries an **empty**
suggestion list — not the top-3 `table.column` strings — because
`getTopColumnMatches` keeps only strictly positive scores. -/
theorem missingFields_no_suggestions_when_all_scores_zero :
    threeColumnSchema.columns.map (scoreColumnMatch (normalizeIdentifier "zzz")) = [0, 0, 0]
    ∧ (evaluateFieldCoverage (some threeColumnSchema) ["zzz"]).missingFields
        = [{ name := "zzz", suggestions := [] }] := by
  constructor
  · simp +decide [scoreColumnMatch, normalizeIdentifier, strIncludes, charsContain,
      charsLeadWith, isLowerAlnum, threeColumnSchema, Char.toLower]
  · simp +decide [evaluateFieldCoverage, uniqueFieldsOf, dedupSeen, jsTrim, classifyField,
      getTopColumnMatches, scoreColumnMatch, normalizeIdentifier, strIncludes, charsContain,
      charsLeadWith, isLowerAlnum, sortByScoreDesc, insertDesc, renderColumnRef,
      threeColumnSchema, Char.toLower, Char.isWhitespace]

/-- **C4 (amended)**: a missing field's suggestion list has at most 3 entries
and every entry is the `table.column` rendering of a schema column whose
score against the field is strictly positive; zero-score candidates are never
recorded (so when every candidate scores 0 the list is empty). -/
theorem missingFields_suggestions_positive (s : DatabaseSchema) (fields : List String)
    (e : MissingField) (he : e ∈ (evaluateFieldCoverage (some s) fields).missingFields)
    (sug : String) (hs : sug ∈ e.suggestions) :
    e.suggestions.length ≤ 3
    ∧ sug ∈ (s.columns.filter fun col =>
        decide (0 < scoreColumnMatch (normalizeIdentifier e.name) col)).map renderColumnRef := by
  by_cases hlen : fields.length = 0
  · simp only [evaluateFieldCoverage, if_pos hlen] at he
    simp at he
  · rw [evaluateFieldCoverage_some_eq s fields hlen] at he
    rcases List.mem_filterMap.mp he with ⟨f, hf, hr⟩
    obtain ⟨hname, hsugg⟩ := classifyField_getRight_shape hr
    constructor
    · rw [hsugg, List.length_map]
      exact length_getTopColumnMatches_le f s 3
    · rw [hsugg] at hs
      rcases List.mem_map.mp hs with ⟨mt, hmt, rfl⟩
      obtain ⟨hcol, hpos, hsc⟩ := mem_getTopColumnMatches hmt
      refine List.mem_map.mpr ⟨mt.column, List.mem_filter.mpr ⟨hcol, ?_⟩, rfl⟩
      rw [hname, ← hsc]
      exact decide_eq_true hpos

/-- The mock `PurchaseOrders.SuggestedQuantity` column (the named fixture). -/
def suggestedQuantityColumn : TableColumn :=
  { tableName := "PurchaseOrders", columnName := "SuggestedQuantity", dataType := "decimal",
    isNullable := false, isPrimaryKey := false, isForeignKey := false }

/-- A one-column schema containing only `SuggestedQuantity`. -/
def poSchema : DatabaseSchema :=
  { tables := ["PurchaseOrders"], columns := [suggestedQuantityColumn], relationships := [] }

set_option maxHeartbeats 1600000 in
/-- Witness for the amended C4 theorem: a concrete missing field whose single
suggestion comes from a positively scoring column. -/
theorem missingFields_suggestions_positive_witness :
    ({ name := "Suggested Qty", suggestions := ["PurchaseOrders.SuggestedQuantity"] }
        : MissingField).suggestions.length ≤ 3
    ∧ "PurchaseOrders.SuggestedQuantity"
        ∈ (poSchema.columns.filter fun col =>
            decide (0 < scoreColumnMatch (normalizeIdentifier
              ({ name := "Suggested Qty", suggestions := ["PurchaseOrders.SuggestedQuantity"] }
                : MissingField).name) col)).map renderColumnRef :=
  missingFields_suggestions_positive poSchema ["Suggested Qty"]
    { name := "Suggested Qty", suggestions := ["PurchaseOrders.SuggestedQuantity"] }
    (by
      have h : (evaluateFieldCoverage (some poSchema) ["Suggested Qty"]).missingFields
          = [{ name := "Suggested Qty", suggestions := ["PurchaseOrders.SuggestedQuantity"] }] := by
        simp +decide only [evaluateFieldCoverage, uniqueFieldsOf, dedupSeen, jsTrim,
          classifyField, getTopColumnMatches, scoreColumnMatch, normalizeIdentifier, strIncludes,
          charsContain, charsLeadWith, isLowerAlnum, sortByScoreDesc, insertDesc, renderColumnRef,
          poSchema, suggestedQuantityColumn, Char.toLower, Char.isWhitespace, List.filterMap,
          List.filter, List.map, List.foldl, List.take, List.contains, List.all, List.isEmpty,
          List.dropWhile, List.reverse, List.reverseAux]
        norm_num [insertDesc, renderColumnRef, roundTo1, jsRound]
        all_goals decide
      rw [h]
      exact List.mem_singleton.mpr rfl)
    "PurchaseOrders.SuggestedQuantity" (by simp)

set_option maxHeartbeats 3200000 in
/-- **C5 counterexample**: the field `"Suggested Qty"` against the fixture
column `SuggestedQuantity` scores exactly `0.2` — only the `qty`/`quantity`
synonym boost fires: neither normalized string contains the other
(`suggestedqty` vs `suggestedquantity`), so there is no containment base and
no containment boost — which is below the `0.35` threshold, and evaluating
the field against the mock schema (which contains that column) classifies it
as missing, not matched. -/
theorem suggestedQty_below_threshold :
    scoreColumnMatch (normalizeIdentifier "Suggested Qty") suggestedQuantityColumn = 2 / 10
    ∧ ¬ (MATCH_THRESHOLD ≤ scoreColumnMatch (normalizeIdentifier "Suggested Qty") suggestedQuantityColumn)
    ∧ (evaluateFieldCoverage (some generateMockDatabaseSchema) ["Suggested Qty"]).matchedFields = [] := by
  have hscore : scoreColumnMatch (normalizeIdentifier "Suggested Qty") suggestedQuantityColumn
      = 2 / 10 := by
    simp +decide [scoreColumnMatch, normalizeIdentifier, strIncludes, charsContain,
      charsLeadWith, isLowerAlnum, suggestedQuantityColumn, Char.toLower]
  refine ⟨hscore, ?_, ?_⟩
  · rw [hscore]
    norm_num [MATCH_THRESHOLD]
  · simp +decide only [evaluateFieldCoverage, uniqueFieldsOf, dedupSeen, jsTrim, classifyField,
      getTopColumnMatches, scoreColumnMatch, normalizeIdentifier, strIncludes, charsContain,
      charsLeadWith, isLowerAlnum, sortByScoreDesc, insertDesc, renderColumnRef,
      generateMockDatabaseSchema, Char.toLower, Char.isWhitespace, List.filterMap, List.filter,
      List.map, List.foldl, List.take, List.contains, List.all, List.isEmpty, List.dropWhile,
      List.reverse, List.reverseAux]
    norm_num [insertDesc, renderColumnRef, roundTo1, jsRound]

set_option maxHeartbeats 3200000 in
/-- **C5 (amended)**: against the mock schema, `"Suggested Qty"` is classified
missing — its best candidates are the three quantity columns, each at score
`0.2`, below the `0.35` threshold — and they are reported as suggestions. -/
theorem suggestedQty_classified_missing :
    (evaluateFieldCoverage (some generateMockDatabaseSchema) ["Suggested Qty"]).missingFields
      = [{ name := "Suggested Qty",
           suggestions := ["PurchaseOrders.SuggestedQuantity", "PurchaseOrders.ActualOrderQuantity",
                           "Transfers.TransferQuantity"] }] := by
  simp +decide only [evaluateFieldCoverage, uniqueFieldsOf, dedupSeen, jsTrim, classifyField,
    getTopColumnMatches, scoreColumnMatch, normalizeIdentifier, strIncludes, charsContain,
    charsLeadWith, isLowerAlnum, sortByScoreDesc, insertDesc, renderColumnRef,
    generateMockDatabaseSchema, Char.toLower, Char.isWhitespace, List.filterMap, List.filter,
    List.map, List.foldl, List.take, List.contains, List.all, List.isEmpty, List.dropWhile,
    List.reverse, List.reverseAux]
  norm_num [insertDesc, renderColumnRef, roundTo1, jsRound]
  all_goals decide

theorem name_mem_matched_of {s : DatabaseSchema} {u : List String} {f : String} (hu : f ∈ u)
    {m : MatchedField} (hm : (classifyField s f).getLeft? = some m) :
    f ∈ (u.filterMap fun x => (classifyField s x).getLeft?).map MatchedField.name :=
  List.mem_map.mpr ⟨m, List.mem_filterMap.mpr ⟨f, hu, hm⟩, (classifyField_getLeft_shape hm).1⟩

theorem name_mem_missing_of {s : DatabaseSchema} {u : List String} {f : String} (hu : f ∈ u)
    {e : MissingField} (he : (classifyField s f).getRight? = some e) :
    f ∈ (u.filterMap fun x => (classifyField s x).getRight?).map MissingField.name :=
  List.mem_map.mpr ⟨e, List.mem_filterMap.mpr ⟨f, hu, he⟩, (classifyField_getRight_shape he).1⟩

theorem getLeft_isSome_of_name_mem_matched {s : DatabaseSchema} {u : List String} {f : String}
    (h : f ∈ (u.filterMap fun x => (classifyField s x).getLeft?).map MatchedField.name) :
    ∃ m, (classifyField s f).getLeft? = some m := by
  rcases List.mem_map.mp h with ⟨m, hm, hname⟩
  rcases List.mem_filterMap.mp hm with ⟨x, hx, hsome⟩
  have hmx : m.name = x := (classifyField_getLeft_shape hsome).1
  rw [← hname, hmx]
  exact ⟨m, hsome⟩

theorem getRight_isSome_of_name_mem_missing {s : DatabaseSchema} {u : List String} {f : String}
    (h : f ∈ (u.filterMap fun x => (classifyField s x).getRight?).map MissingField.name) :
    ∃ e, (classifyField s f).getRight? = some e := by
  rcases List.mem_map.mp h with ⟨e, he, hname⟩
  rcases List.mem_filterMap.mp he with ⟨x, hx, hsome⟩
  have hex : e.name = x := (classifyField_getRight_shape hsome).1
  rw [← hname, hex]
  exact ⟨e, hsome⟩

/-- **C6** (confirmed): for every non-null schema and field list, the report
partitions the deduplicated trimmed non-empty fields exactly — the matched
and missing list lengths add up to the unique field count, and every unique
field name appears in exactly one of the two lists. -/
theorem evaluateFieldCoverage_partition (s : DatabaseSchema) (fields : List String)
    (f : String) (hf : f ∈ uniqueFieldsOf fields) :
    (evaluateFieldCoverage (some s) fields).matchedFields.length
        + (evaluateFieldCoverage (some s) fields).missingFields.length
      = (uniqueFieldsOf fields).length
    ∧ ((f ∈ (evaluateFieldCoverage (some s) fields).matchedFields.map MatchedField.name
          ∧ ¬ f ∈ (evaluateFieldCoverage (some s) fields).missingFields.map MissingField.name)
        ∨ (¬ f ∈ (evaluateFieldCoverage (some s) fields).matchedFields.map MatchedField.name
          ∧ f ∈ (evaluateFieldCoverage (some s) fields).missingFields.map MissingField.name)) := by
  have hlen : ¬ fields.length = 0 := by
    intro h0
    rw [List.length_eq_zero.mp h0] at hf
    exact absurd hf (by simp [uniqueFieldsOf, dedupSeen])
  rw [evaluateFieldCoverage_some_eq s fields hlen]
  refine ⟨sum_length_filterMap_left_right (classifyField s) (uniqueFieldsOf fields), ?_⟩
  cases hcf : classifyField s f with
  | inl m =>
    left
    constructor
    · exact name_mem_matched_of hf (by rw [hcf]; rfl)
    · intro hmem
      rcases getRight_isSome_of_name_mem_missing hmem with ⟨e, he⟩
      rw [hcf] at he
      exact Option.noConfusion he
  | inr e =>
    right
    constructor
    · intro hmem
      rcases getLeft_isSome_of_name_mem_matched hmem with ⟨m, hm⟩
      rw [hcf] at hm
      exact Option.noConfusion hm
    · exact name_mem_missing_of hf (by rw [hcf]; rfl)

set_option maxHeartbeats 1600000 in
/-- Witness for the partition theorem at a concrete schema and field list. -/
theorem evaluateFieldCoverage_partition_witness :
    (evaluateFieldCoverage (some poSchema) ["Suggested Qty"]).matchedFields.length
        + (evaluateFieldCoverage (some poSchema) ["Suggested Qty"]).missingFields.length
      = (uniqueFieldsOf ["Suggested Qty"]).length
    ∧ (("Suggested Qty"
          ∈ (evaluateFieldCoverage (some poSchema) ["Suggested Qty"]).matchedFields.map MatchedField.name
          ∧ ¬ "Suggested Qty"
              ∈ (evaluateFieldCoverage (some poSchema) ["Suggested Qty"]).missingFields.map MissingField.name)
        ∨ (¬ "Suggested Qty"
              ∈ (evaluateFieldCoverage (some poSchema) ["Suggested Qty"]).matchedFields.map MatchedField.name
          ∧ "Suggested Qty"
              ∈ (evaluateFieldCoverage (some poSchema) ["Suggested Qty"]).missingFields.map MissingField.name)) :=
  evaluateFieldCoverage_partition poSchema ["Suggested Qty"] "Suggested Qty" (by decide)

theorem jsRound_percent_bounds {m n : ℕ} (hmn : m ≤ n) (hn : ¬ n = 0) :
    0 ≤ jsRound ((m : ℚ) / (n : ℚ) * 100) ∧ jsRound ((m : ℚ) / (n : ℚ) * 100) ≤ 100 := by
  have hn0 : (0 : ℚ) < (n : ℚ) := by exact_mod_cast Nat.pos_of_ne_zero hn
  have h1 : (m : ℚ) / (n : ℚ) ≤ 1 := by
    rw [div_le_one hn0]
    exact_mod_cast hmn
  have h0 : (0 : ℚ) ≤ (m : ℚ) / (n : ℚ) := by positivity
  unfold jsRound
  constructor
  · exact Int.le_floor.mpr (by push_cast; linarith)
  · calc ⌊(m : ℚ) / (n : ℚ) * 100 + 1 / 2⌋ ≤ ⌊(100 : ℚ) + 1 / 2⌋ := Int.floor_le_floor (by linarith)
    _ = 100 := by norm_num

/-- **C7** (confirmed): the coverage percentage is an integer in `[0, 100]`;
it is `100` when the field list is empty; and whenever there is at least one
unique field it equals `Math.round(matchedCount / uniqueFieldCount * 100)`
(for a null schema the matched list is empty and the branch value `0`
coincides with the formula). -/
theorem evaluateFieldCoverage_percent_bounds (schema : Option DatabaseSchema)
    (fields : List String) :
    0 ≤ (evaluateFieldCoverage schema fields).coveragePercent
    ∧ (evaluateFieldCoverage schema fields).coveragePercent ≤ 100
    ∧ (fields = [] → (evaluateFieldCoverage schema fields).coveragePercent = 100)
    ∧ (0 < (uniqueFieldsOf fields).length →
        (evaluateFieldCoverage schema fields).coveragePercent
          = jsRound (((evaluateFieldCoverage schema fields).matchedFields.length : ℚ)
              / ((uniqueFieldsOf fields).length : ℚ) * 100)) := by
  cases schema with
  | none =>
    by_cases hl : fields.length = 0
    · simp only [evaluateFieldCoverage, if_pos hl]
      refine ⟨by norm_num, by norm_num, fun _ => trivial, fun hu => ?_⟩
      rw [List.length_eq_zero.mp hl] at hu
      simp [uniqueFieldsOf, dedupSeen] at hu
    · simp only [evaluateFieldCoverage, if_neg hl]
      refine ⟨by norm_num, by norm_num,
        fun hfe => absurd (by rw [hfe]; rfl : fields.length = 0) hl, fun hu => ?_⟩
      simp only [List.length_nil, Nat.cast_zero, zero_div, zero_mul]
      norm_num [jsRound]
  | some s =>
    by_cases hl : fields.length = 0
    · simp only [evaluateFieldCoverage, if_pos hl]
      refine ⟨by norm_num, by norm_num, fun _ => trivial, fun hu => ?_⟩
      rw [List.length_eq_zero.mp hl] at hu
      simp [uniqueFieldsOf, dedupSeen] at hu
    · rw [evaluateFieldCoverage_some_eq s fields hl]
      by_cases hu0 : (uniqueFieldsOf fields).length = 0
      · simp only [if_pos hu0]
        exact ⟨by norm_num, by norm_num,
          fun hfe => absurd (by rw [hfe]; rfl : fields.length = 0) hl,
          fun hu => absurd hu0 (by omega)⟩
      · simp only [if_neg hu0]
        have hmn :
            ((uniqueFieldsOf fields).filterMap fun f => (classifyField s f).getLeft?).length
              ≤ (uniqueFieldsOf fields).length := by
          have := sum_length_filterMap_left_right (classifyField s) (uniqueFieldsOf fields)
          omega
        obtain ⟨hb0, hb100⟩ := jsRound_percent_bounds hmn hu0
        exact ⟨hb0, hb100,
          fun hfe => absurd (by rw [hfe]; rfl : fields.length = 0) hl, fun _ => trivial⟩

/-- Witness for the percentage theorem: the empty field list yields 100. -/
theorem evaluateFieldCoverage_percent_bounds_witness :
    (evaluateFieldCoverage none ([] : List String)).coveragePercent = 100 :=
  (evaluateFieldCoverage_percent_bounds none []).2.2.1 rfl

/-- **C10** (confirmed): every matched field in a coverage report carries
confidence at least 35, because matching requires the best score to clear the
`0.35` threshold and confidence is that score times 100 rounded to one
decimal. -/
theorem matchedFields_confidence_ge_threshold (s : DatabaseSchema) (fields : List String)
    (m : MatchedField) (hm : m ∈ (evaluateFieldCoverage (some s) fields).matchedFields) :
    35 ≤ m.confidence := by
  by_cases hlen : fields.length = 0
  · simp only [evaluateFieldCoverage, if_pos hlen] at hm
    simp at hm
  · rw [evaluateFieldCoverage_some_eq s fields hlen] at hm
    rcases List.mem_filterMap.mp hm with ⟨f, hf, hsome⟩
    obtain ⟨-, best, rest, -, hth, -, hconf⟩ := classifyField_getLeft_shape hsome
    rw [hconf]
    unfold roundTo1 jsRound
    have h350 : (350 : ℤ) ≤ ⌊best.score * 100 * 10 + 1 / 2⌋ := by
      rw [Int.le_floor]
      push_cast
      linarith
    have hcast : ((350 : ℤ) : ℚ) ≤ (⌊best.score * 100 * 10 + 1 / 2⌋ : ℚ) := by
      exact_mod_cast h350
    push_cast at hcast
    linarith

/-- The single-column schema used to witness the confidence bound. -/
def amountColumn : TableColumn :=
  { tableName := "T", columnName := "Amount", dataType := "int",
    isNullable := false, isPrimaryKey := false, isForeignKey := false }

/-- A one-column schema whose `Amount` column matches the field `"Amount"`. -/
def amountSchema : DatabaseSchema :=
  { tables := ["T"], columns := [amountColumn], relationships := [] }

set_option maxHeartbeats 1600000 in
/-- Witness for the confidence bound at a concrete matched field
(`"Amount"` matches `T.Amount` exactly, score 1.3, confidence 130). -/
theorem matchedFields_confidence_ge_threshold_witness :
    35 ≤ ({ name := "Amount", column := "T.Amount", confidence := 130 } : MatchedField).confidence :=
  matchedFields_confidence_ge_threshold amountSchema ["Amount"]
    { name := "Amount", column := "T.Amount", confidence := 130 }
    (by
      have h : (evaluateFieldCoverage (some amountSchema) ["Amount"]).matchedFields
          = [{ name := "Amount", column := "T.Amount", confidence := 130 }] := by
        simp +decide only [evaluateFieldCoverage, uniqueFieldsOf, dedupSeen, jsTrim,
          classifyField, getTopColumnMatches, scoreColumnMatch, normalizeIdentifier, strIncludes,
          charsContain, charsLeadWith, isLowerAlnum, sortByScoreDesc, insertDesc, renderColumnRef,
          amountSchema, amountColumn, Char.toLower, Char.isWhitespace, List.filterMap,
          List.filter, List.map, List.foldl, List.take, List.contains, List.all, List.isEmpty,
          List.dropWhile, List.reverse, List.reverseAux]
        norm_num [insertDesc, renderColumnRef, roundTo1, jsRound]
        all_goals decide
      rw [h]
      exact List.mem_singleton.mpr rfl)

/-- Witness for the self-score bound at a concrete column. -/
theorem scoreColumnMatch_self_ge_witness :
    13 / 10 ≤ scoreColumnMatch (normalizeIdentifier amountColumn.columnName) amountColumn :=
  scoreColumnMatch_self_ge amountColumn

/-- Witness for normalizer idempotence at a concrete string. -/
theorem normalizeIdentifier_idempotent_witness :
    normalizeIdentifier (normalizeIdentifier "Suggested Qty")
      = normalizeIdentifier "Suggested Qty" :=
  normalizeIdentifier_idempotent "Suggested Qty"
